import Mathlib

/-!
# Verification of `github_repo_checker.py`

A shallow embedding of the single source file `src/github_repo_checker.py`
of the RepoHealth repository, together with theorems settling the frozen
claims about it.

Modelling conventions:
* Timestamps (`datetime` values, `pushed_at` strings parsed with
  `strptime '%Y-%m-%dT%H:%M:%SZ'`, `time.time()` readings) are modelled as
  integer seconds since the epoch; `timedelta(days=d)` becomes `d * 86400`
  seconds.  The claims only compare whole-day gaps, so second granularity
  is faithful.
* A Python repository-metadata `dict` is modelled as a structure whose
  fields are `Option`-valued: `none` models an absent key, `some v` a
  present one.  A `KeyError` on an absent key is modelled by `Option`
  failure in `check_repository`.
* The HTTP layer (`requests.get`) is modelled as a function from the index
  of the GET call (0, 1, 2, ...) to an outcome: either a response record
  (status code plus the two rate-limit headers) or a raised
  `requests.RequestException`.  `time.sleep` advances a threaded clock.
* The recursion in `make_request` is genuinely unbounded (the rate-limit
  path restarts with `retry_count = 0`), so it is embedded with explicit
  fuel; the result `fuelOut` means the computation is still running after
  `fuel` nested calls.  Exceptions other than `requests.RequestException`
  that escape the rate-limit branch uncaught (`KeyError` on a missing
  `X-RateLimit-Reset` header, `ValueError` from `time.sleep` on a
  negative duration) terminate the run with the distinct result
  `pyError`.
-/

/-- `MAX_RETRIES = 3` from the source. -/
def MAX_RETRIES : Nat := 3

/-- `OUTDATED_THRESHOLD_DAYS = 365` from the source. -/
def OUTDATED_THRESHOLD_DAYS : Nat := 365

/-- `BROKEN_THRESHOLD_DAYS = 180` from the source. -/
def BROKEN_THRESHOLD_DAYS : Nat := 180

/-- `BROKEN_ISSUES_THRESHOLD = 10` from the source. -/
def BROKEN_ISSUES_THRESHOLD : Int := 10

/-- `timedelta(days = d)` measured in seconds. -/
def daysToSec (d : Nat) : Int := (d : Int) * 86400

/-- A repository-metadata record as returned by the search API.  Each
field is `Option`-valued: `none` models the key being absent from the
Python dict.  `pushed_at` holds the already-parsed timestamp (seconds
since epoch); `created_at` is carried verbatim and never parsed. -/
structure RepoInfo where
  full_name : Option String
  html_url : Option String
  description : Option String
  stargazers_count : Option Int
  open_issues_count : Option Int
  pushed_at : Option Int
  created_at : Option String
deriving Repr, DecidableEq

/-- The Python truthiness test `not repo_info`: an empty dict is falsy.
In the structure model the dict is empty exactly when every key is
absent. -/
def RepoInfo.isEmpty (r : RepoInfo) : Bool :=
  r.full_name.isNone && r.html_url.isNone && r.description.isNone &&
  r.stargazers_count.isNone && r.open_issues_count.isNone &&
  r.pushed_at.isNone && r.created_at.isNone

/-- `is_repo_outdated` (source lines 79–86): false when the dict is empty
or lacks `pushed_at`; otherwise true iff `utcnow() - last_push` exceeds
a 365-day `timedelta`.  `now` is the
`datetime.utcnow()` reading, in seconds. -/
def is_repo_outdated (now : Int) (repo_info : RepoInfo) : Bool :=
  if repo_info.isEmpty then false
  else
    match repo_info.pushed_at with
    | none => false
    | some last_push =>
        decide ((now - last_push) > daysToSec OUTDATED_THRESHOLD_DAYS)

/-- `is_repo_broken` (source lines 88–97): false when the dict is empty or
lacks `pushed_at`; otherwise true iff `open_issues_count` (defaulting to 0
via `dict.get`) exceeds `BROKEN_ISSUES_THRESHOLD` and the last push is
more than `BROKEN_THRESHOLD_DAYS` days old. -/
def is_repo_broken (now : Int) (repo_info : RepoInfo) : Bool :=
  if repo_info.isEmpty then false
  else
    match repo_info.pushed_at with
    | none => false
    | some last_push =>
        let has_open_issues :=
          decide (repo_info.open_issues_count.getD 0 > BROKEN_ISSUES_THRESHOLD)
        let no_recent_commits :=
          decide ((now - last_push) > daysToSec BROKEN_THRESHOLD_DAYS)
        has_open_issues && no_recent_commits

/-- The record built by `check_repository` (source lines 99–113). -/
structure AnalysisResult where
  name : String
  url : String
  description : String
  stars : Int
  open_issues : Int
  last_push : Int
  created_at : String
  is_outdated : Bool
  is_broken : Bool
deriving Repr, DecidableEq

/-- `check_repository` (source lines 99–113).  Keys `full_name`,
`html_url`, `stargazers_count`, `open_issues_count`, `pushed_at` and
`created_at` are read with `repo_info[...]`, so an absent key raises
`KeyError` — modelled by `none`.  `description` is read with
`.get('description', '')` and therefore defaulted. -/
def check_repository (now : Int) (repo_info : RepoInfo) :
    Option AnalysisResult := do
  let name ← repo_info.full_name
  let url ← repo_info.html_url
  let stars ← repo_info.stargazers_count
  let open_issues ← repo_info.open_issues_count
  let last_push ← repo_info.pushed_at
  let created ← repo_info.created_at
  pure
    { name := name
      url := url
      description := repo_info.description.getD ""
      stars := stars
      open_issues := open_issues
      last_push := last_push
      created_at := created
      is_outdated := is_repo_outdated now repo_info
      is_broken := is_repo_broken now repo_info }

/-- A fully populated sample record, used to instantiate hypotheses of the
claim theorems at concrete inputs. -/
def mkRepo (stars issues pushed : Int) : RepoInfo :=
  { full_name := some "octo/repo"
    html_url := some "https://example.invalid/octo/repo"
    description := some "a repo"
    stargazers_count := some stars
    open_issues_count := some issues
    pushed_at := some pushed
    created_at := some "2020-01-01T00:00:00Z" }

lemma isEmpty_eq_false_of_pushed {r : RepoInfo} {lp : Int}
    (h : r.pushed_at = some lp) : r.isEmpty = false := by
  simp [RepoInfo.isEmpty, h]

/-- Claim C1: for every metadata record carrying a `pushed_at` timestamp,
`is_repo_outdated` returns true exactly when `now - last_push` is strictly
greater than 365 days; a gap of exactly 365 days or fewer gives false. -/
theorem is_repo_outdated_iff (now : Int) (r : RepoInfo) (lp : Int)
    (h : r.pushed_at = some lp) :
    (is_repo_outdated now r = true ↔
        now - lp > daysToSec OUTDATED_THRESHOLD_DAYS) ∧
      (now - lp ≤ daysToSec OUTDATED_THRESHOLD_DAYS →
        is_repo_outdated now r = false) := by
  have he := isEmpty_eq_false_of_pushed h
  constructor
  · simp [is_repo_outdated, he, h]
  · intro hle
    simp [is_repo_outdated, he, h]
    omega

/-- Witness for C1 at a concrete record: gap of 365 days + 1 second. -/
theorem is_repo_outdated_iff_witness :
    (mkRepo 1 0 0).pushed_at = some 0 ∧
      (is_repo_outdated (daysToSec 365 + 1) (mkRepo 1 0 0) = true ↔
          daysToSec 365 + 1 - 0 > daysToSec OUTDATED_THRESHOLD_DAYS) :=
  ⟨rfl, (is_repo_outdated_iff (daysToSec 365 + 1) (mkRepo 1 0 0) 0 rfl).1⟩

/-- Claim C2: for every metadata record carrying a `pushed_at` timestamp
and an open-issue count, `is_repo_broken` returns true exactly when the
open-issue count strictly exceeds 10 and the last push is strictly more
than 180 days old; with ≤ 10 issues or a push within 180 days it is
false. -/
theorem is_repo_broken_iff (now : Int) (r : RepoInfo) (lp oi : Int)
    (hp : r.pushed_at = some lp) (hoi : r.open_issues_count = some oi) :
    (is_repo_broken now r = true ↔
        oi > BROKEN_ISSUES_THRESHOLD ∧
          now - lp > daysToSec BROKEN_THRESHOLD_DAYS) ∧
      (oi ≤ BROKEN_ISSUES_THRESHOLD ∨
          now - lp ≤ daysToSec BROKEN_THRESHOLD_DAYS →
        is_repo_broken now r = false) := by
  have he := isEmpty_eq_false_of_pushed hp
  constructor
  · simp [is_repo_broken, he, hp, hoi]
  · intro hor
    simp [is_repo_broken, he, hp, hoi]
    omega

/-- Witness for C2 at a concrete record: 11 issues, push 181 days old. -/
theorem is_repo_broken_iff_witness :
    (mkRepo 1 11 0).pushed_at = some 0 ∧
      (mkRepo 1 11 0).open_issues_count = some 11 ∧
      (is_repo_broken (daysToSec 181) (mkRepo 1 11 0) = true ↔
        (11 : Int) > BROKEN_ISSUES_THRESHOLD ∧
          daysToSec 181 - 0 > daysToSec BROKEN_THRESHOLD_DAYS) :=
  ⟨rfl, rfl,
    (is_repo_broken_iff (daysToSec 181) (mkRepo 1 11 0) 0 11 rfl rfl).1⟩

/-- Claim C7: on an empty record, or one lacking `pushed_at`, both
classifiers return false (and, being total functions, do not raise). -/
theorem classifiers_false_of_missing_push (now : Int) (r : RepoInfo)
    (h : r.isEmpty = true ∨ r.pushed_at = none) :
    is_repo_outdated now r = false ∧ is_repo_broken now r = false := by
  rcases h with h | h
  · simp [is_repo_outdated, is_repo_broken, h]
  · cases he : r.isEmpty <;>
      simp [is_repo_outdated, is_repo_broken, h, he]

/-- Witness for C7 at the record with every key absent. -/
theorem classifiers_false_of_missing_push_witness :
    ((RepoInfo.mk none none none none none none none).isEmpty = true ∨
        (RepoInfo.mk none none none none none none none).pushed_at = none) ∧
      is_repo_outdated 0 (RepoInfo.mk none none none none none none none)
          = false ∧
        is_repo_broken 0 (RepoInfo.mk none none none none none none none)
          = false :=
  ⟨Or.inl rfl,
    classifiers_false_of_missing_push 0
      (RepoInfo.mk none none none none none none none) (Or.inl rfl)⟩

/-- Claim C8: `check_repository` maps one metadata record to one result
applying both classifiers, and fails with a lookup error exactly when one
of the six required keys is absent (`description` alone is defaulted). -/
theorem check_repository_spec (now : Int) (r : RepoInfo) :
    (check_repository now r = none ↔
        (r.full_name = none ∨ r.html_url = none ∨
          r.stargazers_count = none ∨ r.open_issues_count = none ∨
          r.pushed_at = none ∨ r.created_at = none)) ∧
      (∀ a : AnalysisResult, check_repository now r = some a →
        a.is_outdated = is_repo_outdated now r ∧
          a.is_broken = is_repo_broken now r ∧
          some a.stars = r.stargazers_count ∧
          some a.name = r.full_name ∧
          some a.url = r.html_url ∧
          some a.open_issues = r.open_issues_count ∧
          some a.last_push = r.pushed_at ∧
          some a.created_at = r.created_at ∧
          a.description = r.description.getD "") := by
  obtain ⟨fn, hu, d, sc, oic, pa, ca⟩ := r
  cases fn <;> cases hu <;> cases sc <;> cases oic <;> cases pa <;>
    cases ca <;> simp [check_repository]

/-- Witness for C8: applies the characterization at a record missing
`full_name`, concluding a lookup failure there. -/
theorem check_repository_spec_witness :
    check_repository 0
        (RepoInfo.mk none (some "u") (some "d") (some 1) (some 2) (some 3)
          (some "c")) = none :=
  (check_repository_spec 0
        (RepoInfo.mk none (some "u") (some "d") (some 1) (some 2) (some 3)
          (some "c"))).1.mpr
    (Or.inl rfl)

/-- Outcome of fetching one search page: `ok items` models
`make_request(...)` succeeding and `response.json()['items']` yielding
`items`; `err` models a `requests.RequestException` escaping
`make_request` (caught by the loop in `search_repos`). -/
inductive FetchResult (α : Type) where
  | ok (items : List α)
  | err
deriving Repr, DecidableEq

/-- Python's `l[:m]` for an `int` bound `m`: for `m ≥ 0` the first `m`
elements; for `m < 0` all but the last `|m|` elements (clamped at 0). -/
def pySliceTo {α : Type} (l : List α) (m : Int) : List α :=
  l.take (if m < 0 then ((l.length : Int) + m).toNat else m.toNat)

/-- The `while` loop of `search_repos` (source lines 59–75), as a
recursive function.  `fetch p` is the outcome of requesting page `p`.
Returns the collected items together with the list of pages actually
requested.  The loop body adds at least one item whenever it recurses, so
the recursion is well founded on `max_repos - len(all_repos)`. -/
def search_repos_go {α : Type} (fetch : Nat → FetchResult α)
    (max_repos : Int) (acc : List α) (page : Nat) : List α × List Nat :=
  if _h : (acc.length : Int) < max_repos then
    match fetch page with
    | .err => (acc, [page])
    | .ok [] => (acc, [page])
    | .ok (i :: rest) =>
        let acc' := acc ++ i :: rest
        if h2 : max_repos ≤ (acc'.length : Int) then (acc', [page])
        else
          let r := search_repos_go fetch max_repos acc' (page + 1)
          (r.1, page :: r.2)
  else (acc, [])
termination_by (max_repos - acc.length).toNat
decreasing_by simp [acc'] at *; omega

/-- `search_repos` (source lines 50–77): run the pagination loop from an
empty accumulator and page 1, then truncate with `all_repos[:max_repos]`.
Only the query-independent pagination logic is modelled; the query, sort
key and order merely select which `fetch` function the API implements. -/
def search_repos {α : Type} (fetch : Nat → FetchResult α)
    (max_repos : Int) : List α :=
  pySliceTo (search_repos_go fetch max_repos [] 1).1 max_repos

/-- The pages requested by a `search_repos` run (each corresponds to one
`make_request` call issued by the loop). -/
def search_repos_requests {α : Type} (fetch : Nat → FetchResult α)
    (max_repos : Int) : List Nat :=
  (search_repos_go fetch max_repos [] 1).2

lemma search_repos_go_err {α : Type} (fetch : Nat → FetchResult α)
    (max_repos : Int) (acc : List α) (page : Nat)
    (h : fetch page = .err) :
    (search_repos_go fetch max_repos acc page).1 = acc := by
  rw [search_repos_go]
  split
  · rw [h]
  · rfl

lemma search_repos_go_ok_full {α : Type} (fetch : Nat → FetchResult α)
    (m : Int) (acc : List α) (page : Nat) (i : α) (rest : List α)
    (hacc : (acc.length : Int) < m) (hfetch : fetch page = .ok (i :: rest))
    (h2 : m ≤ (((acc ++ i :: rest).length : Nat) : Int)) :
    search_repos_go fetch m acc page = (acc ++ i :: rest, [page]) := by
  rw [search_repos_go, dif_pos hacc, hfetch]
  dsimp only
  rw [dif_pos h2]

lemma search_repos_go_ok_more {α : Type} (fetch : Nat → FetchResult α)
    (m : Int) (acc : List α) (page : Nat) (i : α) (rest : List α)
    (hacc : (acc.length : Int) < m) (hfetch : fetch page = .ok (i :: rest))
    (h2 : ¬ m ≤ (((acc ++ i :: rest).length : Nat) : Int)) :
    search_repos_go fetch m acc page =
      ((search_repos_go fetch m (acc ++ i :: rest) (page + 1)).1,
        page :: (search_repos_go fetch m (acc ++ i :: rest) (page + 1)).2) := by
  rw [search_repos_go, dif_pos hacc, hfetch]
  dsimp only
  rw [dif_neg h2]

/-- Claim C10: for `max_repos ≤ 0` the loop guard fails immediately, so no
page is requested and the result is the empty list. -/
theorem search_repos_empty_of_nonpos {α : Type}
    (fetch : Nat → FetchResult α) (m : Int) (h : m ≤ 0) :
    search_repos_go fetch m ([] : List α) 1 = ([], []) ∧
      search_repos fetch m = [] := by
  have hlt : ¬ ((([] : List α).length : Int) < m) := by
    intro hc
    simp only [List.length_nil, Nat.cast_zero] at hc
    omega
  constructor
  · rw [search_repos_go]
    exact dif_neg hlt
  · unfold search_repos
    rw [search_repos_go, dif_neg hlt]
    simp [pySliceTo]

/-- Witness for C10 at `max_repos = 0` and an always-failing source. -/
theorem search_repos_empty_of_nonpos_witness :
    ((0 : Int) ≤ 0) ∧
      (search_repos_go (fun _ => (FetchResult.err : FetchResult Nat)) 0 [] 1
          = ([], []) ∧
        search_repos (fun _ => (FetchResult.err : FetchResult Nat)) 0 = []) :=
  ⟨le_refl 0,
    search_repos_empty_of_nonpos (fun _ => (FetchResult.err : FetchResult Nat))
      0 (le_refl 0)⟩

/-- Claim C4: a request error while fetching a page stops pagination and
the items already collected are returned as a normal result (the
exception is caught, never re-raised); concretely, an error on page 2
after a 100-item page 1 yields exactly those 100 items. -/
theorem search_repos_error_partial :
    (∀ (α : Type) (fetch : Nat → FetchResult α) (m : Int) (acc : List α)
        (page : Nat), fetch page = .err →
        (search_repos_go fetch m acc page).1 = acc) ∧
      (∀ items : List Nat, items.length = 100 →
        search_repos
            (fun p => if p = 1 then FetchResult.ok items else .err) 1000 =
          items) := by
  constructor
  · intro α fetch m acc page h
    exact search_repos_go_err fetch m acc page h
  · intro items hlen
    cases items with
    | nil => simp at hlen
    | cons i rest =>
      have hlen' : rest.length = 99 := by simpa using hlen
      unfold search_repos
      have h1 : (fun p => if p = 1 then FetchResult.ok (i :: rest)
          else .err) 1 = .ok (i :: rest) := by simp
      have hcond :
          ¬ (1000 : Int) ≤ ((([] ++ i :: rest).length : Nat) : Int) := by
        simp [hlen']
      rw [search_repos_go_ok_more _ 1000 [] 1 i rest (by simp) h1 hcond]
      have h2 : (fun p => if p = 1 then FetchResult.ok (i :: rest)
          else .err) 2 = .err := by simp
      rw [search_repos_go_err _ 1000 ([] ++ i :: rest) 2 h2]
      have hle : ([] ++ i :: rest).length ≤ 1000 := by
        simp only [List.nil_append, List.length_cons]
        omega
      simp [pySliceTo, List.take_of_length_le hle]
      all_goals omega

/-- Witness for C4: page 1 holds the 100 items `0..99`, page 2 errors. -/
theorem search_repos_error_partial_witness :
    (List.range 100).length = 100 ∧
      search_repos
          (fun p => if p = 1 then FetchResult.ok (List.range 100) else .err)
          1000 = List.range 100 :=
  ⟨by simp, search_repos_error_partial.2 (List.range 100) (by simp)⟩

/-- Counterexample to claim C3 as stated: the claim quantifies over every
requested maximum, but for `max_repos = -1` the loop collects nothing and
the Python slice of the empty list is empty, so the result length 0 is
not ≤ -1. -/
theorem search_repos_length_cex :
    search_repos (fun _ => (FetchResult.err : FetchResult Nat)) (-1) = [] ∧
      ¬ (((search_repos (fun _ => (FetchResult.err : FetchResult Nat))
              (-1)).length : Int) ≤ -1) := by
  have h : search_repos (fun _ => (FetchResult.err : FetchResult Nat)) (-1)
      = [] := by
    unfold search_repos
    rw [search_repos_go, dif_neg (by simp)]
    simp [pySliceTo]
  refine ⟨h, ?_⟩
  rw [h]
  decide

/-- Claim C3, amended: for every nonnegative requested maximum the result
has length at most that maximum (for a negative maximum the result is
empty — see the counterexample), and against a source whose every page
holds 100 items, `max_repos = 5` returns exactly the first 5 items of
page 1. -/
theorem search_repos_spec :
    (∀ (α : Type) (fetch : Nat → FetchResult α) (m : Int), 0 ≤ m →
        ((search_repos fetch m).length : Int) ≤ m) ∧
      (∀ pages : Nat → List Nat, (∀ p, (pages p).length = 100) →
        search_repos (fun p => FetchResult.ok (pages p)) 5 =
          (pages 1).take 5) := by
  constructor
  · intro α fetch m hm
    unfold search_repos pySliceTo
    rw [if_neg (by omega)]
    simp only [List.length_take]
    omega
  · intro pages hp
    cases hp1 : pages 1 with
    | nil =>
        have h100 := hp 1
        rw [hp1] at h100
        simp at h100
    | cons i rest =>
      have hlen : rest.length = 99 := by
        have h100 := hp 1
        rw [hp1] at h100
        simpa using h100
      unfold search_repos
      have h1 : (fun p => FetchResult.ok (pages p)) 1 = .ok (i :: rest) := by
        simp [hp1]
      have hcond : (5 : Int) ≤ ((([] ++ i :: rest).length : Nat) : Int) := by
        simp [hlen]
      rw [search_repos_go_ok_full _ 5 [] 1 i rest (by simp) h1 hcond]
      simp [pySliceTo]

/-- Witness for C3 (amended) at a source whose pages are all `0..99`. -/
theorem search_repos_spec_witness :
    (∀ _p : Nat, (List.range 100).length = 100) ∧
      search_repos (fun _ => FetchResult.ok (List.range 100)) 5 =
        (List.range 100).take 5 :=
  ⟨fun _ => by simp,
    search_repos_spec.2 (fun _ => List.range 100) (fun _ => by simp)⟩

/-- The slice of an HTTP response that `make_request` inspects:
`status_code`, and the `X-RateLimit-Remaining` and `X-RateLimit-Reset`
headers, each either absent or carrying its integer value. -/
structure HttpResponse where
  status_code : Nat
  rateLimitRemaining : Option Int
  rateLimitReset : Option Int
deriving Repr, DecidableEq

/-- Outcome of one `requests.get` call: a response, or a raised
`requests.RequestException`. -/
inductive GetResult where
  | resp (r : HttpResponse)
  | exn
deriving Repr, DecidableEq

/-- Outcome of a `make_request` run: a returned response, a
`RequestException` propagated to the caller, an uncaught non-request
exception terminating the run (`pyError`: the `KeyError` from reading a
missing `X-RateLimit-Reset` header, or the `ValueError` from
`time.sleep` on a negative duration — neither is caught by
`except requests.RequestException`), or fuel exhaustion (the recursion
is still running after the allotted number of nested calls). -/
inductive MRes where
  | ok (r : HttpResponse)
  | exn
  | pyError
  | fuelOut
deriving Repr, DecidableEq

/-- Observable trace of a `make_request` run: its result, the durations
passed to `time.sleep` in order, the number of `requests.get` calls
issued, and the clock value when the run ends. -/
structure MOut where
  result : MRes
  sleeps : List Int
  gets : Nat
  tEnd : Int
deriving Repr, DecidableEq

/-- `make_request` (source lines 24–48).  `server i` is what the i-th
`requests.get` of the run returns; `now` is the current `time.time()`
reading, advanced by every sleep.  Mirrors the source structure: a 403
response with a zero `X-RateLimit-Remaining` header sleeps until
`X-RateLimit-Reset` + 1 and re-issues the request with `retry_count`
reset to 0 — inside the `try`, so a `RequestException` escaping that
recursive call is caught by this frame's handler; any other response
goes through `raise_for_status` (raising for status 400–599), and a
raised `RequestException` triggers an exponential-backoff retry
(`2 ** retry_count` seconds) while `retry_count < MAX_RETRIES`, after
which it is re-raised.  Two error paths of the rate-limit branch
terminate the run with an uncaught exception (`pyError`): reading an
absent `X-RateLimit-Reset` header raises `KeyError`, and a stale reset
making `sleep_time = reset - now + 1` negative makes `time.sleep` raise
`ValueError`; neither is a `RequestException`, so both also pass
uncaught through every enclosing frame. -/
def make_request (server : Nat → GetResult) (now : Int)
    (callIdx retry_count : Nat) : Nat → MOut
  | 0 => ⟨.fuelOut, [], 0, now⟩
  | fuel + 1 =>
    match server callIdx with
    | .exn =>
        if retry_count < MAX_RETRIES then
          let wait : Int := 2 ^ retry_count
          let rest := make_request server (now + wait) (callIdx + 1)
              (retry_count + 1) fuel
          ⟨rest.result, wait :: rest.sleeps, rest.gets + 1, rest.tEnd⟩
        else ⟨.exn, [], 1, now⟩
    | .resp r =>
        if r.status_code = 403 ∧ r.rateLimitRemaining.isSome then
          if r.rateLimitRemaining = some 0 then
            match r.rateLimitReset with
            | none => ⟨.pyError, [], 1, now⟩
            | some reset_time =>
                let sleep_time : Int := reset_time - now + 1
                if sleep_time < 0 then ⟨.pyError, [], 1, now⟩
                else
                  let rest := make_request server (now + sleep_time)
                      (callIdx + 1) 0 fuel
                  match rest.result with
                  | .exn =>
                      if retry_count < MAX_RETRIES then
                        let wait : Int := 2 ^ retry_count
                        let rest2 := make_request server (rest.tEnd + wait)
                            (callIdx + 1 + rest.gets) (retry_count + 1) fuel
                        ⟨rest2.result,
                          sleep_time :: (rest.sleeps ++ wait :: rest2.sleeps),
                          rest.gets + 1 + rest2.gets, rest2.tEnd⟩
                      else ⟨.exn, sleep_time :: rest.sleeps, rest.gets + 1,
                        rest.tEnd⟩
                  | _ => ⟨rest.result, sleep_time :: rest.sleeps,
                      rest.gets + 1, rest.tEnd⟩
          else
            if 400 ≤ r.status_code ∧ r.status_code < 600 then
              if retry_count < MAX_RETRIES then
                let wait : Int := 2 ^ retry_count
                let rest := make_request server (now + wait) (callIdx + 1)
                    (retry_count + 1) fuel
                ⟨rest.result, wait :: rest.sleeps, rest.gets + 1, rest.tEnd⟩
              else ⟨.exn, [], 1, now⟩
            else ⟨.ok r, [], 1, now⟩
        else
          if 400 ≤ r.status_code ∧ r.status_code < 600 then
            if retry_count < MAX_RETRIES then
              let wait : Int := 2 ^ retry_count
              let rest := make_request server (now + wait) (callIdx + 1)
                  (retry_count + 1) fuel
              ⟨rest.result, wait :: rest.sleeps, rest.gets + 1, rest.tEnd⟩
            else ⟨.exn, [], 1, now⟩
          else ⟨.ok r, [], 1, now⟩

/-- A rate-limited response: status 403 with `X-RateLimit-Remaining: 0`. -/
def isRateLimited (g : GetResult) : Prop :=
  ∃ r : HttpResponse, g = .resp r ∧ r.status_code = 403 ∧
    r.rateLimitRemaining = some 0

/-- Counterexample to claim C6 as stated: a server that rate-limits
every attempt does NOT always make `make_request` run forever.  With
every response 403 / `Remaining: 0` / `Reset: 0` and the clock at 1000,
the computed sleep is `0 - 1000 + 1 = -999`, so `time.sleep` raises an
uncaught `ValueError` and the run terminates after a single request —
in particular it is not still running at fuel 1. -/
theorem make_request_rate_limit_cex :
    (∀ i : Nat, isRateLimited ((fun _ : Nat =>
        GetResult.resp ⟨403, some 0, some 0⟩) i)) ∧
      (make_request (fun _ => GetResult.resp ⟨403, some 0, some 0⟩)
          1000 0 0 1).result = .pyError ∧
      (make_request (fun _ => GetResult.resp ⟨403, some 0, some 0⟩)
          1000 0 0 1).result ≠ .fuelOut ∧
      (make_request (fun _ => GetResult.resp ⟨403, some 0, some 0⟩)
          1000 0 0 1).gets = 1 :=
  ⟨fun _ => ⟨⟨403, some 0, some 0⟩, rfl, rfl, rfl⟩, by decide, by decide,
    by decide⟩

/-- Claim C6, amended: rate-limit responses are retried with no ceiling —
each one sleeps until the reset time and re-issues the request with the
retry counter reset to 0 — so when every attempt yields a rate-limited
response that carries an `X-RateLimit-Reset` value, the reset values
never decrease, and the first reset is not already stale (the start
clock is at most `reset + 1`, keeping every computed sleep
nonnegative), `make_request` never terminates: for every fuel bound the
computation is still running (`fuelOut`) and has issued exactly `fuel`
requests. -/
theorem make_request_rate_limit_loop (server : Nat → GetResult)
    (reset : Nat → Int)
    (hs : ∀ i, server i = .resp ⟨403, some 0, some (reset i)⟩)
    (hmono : ∀ i, reset i ≤ reset (i + 1)) :
    ∀ (fuel : Nat) (now : Int) (callIdx retry_count : Nat),
      now ≤ reset callIdx + 1 →
      (make_request server now callIdx retry_count fuel).result = .fuelOut ∧
        (make_request server now callIdx retry_count fuel).gets = fuel := by
  intro fuel
  induction fuel with
  | zero => intro now idx rc _; exact ⟨rfl, rfl⟩
  | succ fuel ih =>
    intro now idx rc hnow
    have hns : ¬ (reset idx - now + 1 < 0) := by omega
    have ih1 := ih (now + (reset idx - now + 1)) (idx + 1) 0
      (by have := hmono idx; omega)
    simp only [make_request, hs idx]
    norm_num
    rw [if_neg hns]
    rw [ih1.1]
    exact ⟨rfl, by simp [ih1.2]⟩

/-- Witness for C6 (amended): a server that always answers 403 with zero
remaining quota and a fixed fresh reset time 0, started at clock 0 and
probed at fuel 5. -/
theorem make_request_rate_limit_loop_witness :
    (∀ i : Nat, (fun _ : Nat => GetResult.resp ⟨403, some 0, some 0⟩) i =
        GetResult.resp ⟨403, some 0, some 0⟩) ∧
      (∀ _i : Nat, (0 : Int) ≤ 0) ∧
      ((0 : Int) ≤ 0 + 1) ∧
      ((make_request (fun _ => GetResult.resp ⟨403, some 0, some 0⟩) 0 0 0
            5).result = .fuelOut ∧
        (make_request (fun _ => GetResult.resp ⟨403, some 0, some 0⟩) 0 0 0
            5).gets = 5) :=
  ⟨fun _ => rfl, fun _ => le_refl 0, by norm_num,
    make_request_rate_limit_loop
      (fun _ => GetResult.resp ⟨403, some 0, some 0⟩) (fun _ => 0)
      (fun _ => rfl) (fun _ => le_refl 0) 5 0 0 0 (by norm_num)⟩

/-- Claim C5: when every attempt raises a request-level exception,
`make_request` sleeps `2^k` seconds before retry `k+1` (so 1, 2 and 4
seconds), issues `MAX_RETRIES + 1 = 4` GET attempts in total, and then
propagates the exception to the caller.  Stated for every sufficient fuel
bound `fuel + 4`. -/
theorem make_request_retries (server : Nat → GetResult) (now : Int)
    (fuel : Nat) (h : ∀ i, server i = .exn) :
    make_request server now 0 0 (fuel + 4) =
      ⟨.exn, [1, 2, 4], 4, now + 7⟩ := by
  simp only [make_request, h, MAX_RETRIES]
  norm_num
  omega

/-- Witness for C5: the always-failing server, at fuel exactly 4. -/
theorem make_request_retries_witness :
    (∀ i : Nat, (fun _ : Nat => GetResult.exn) i = GetResult.exn) ∧
      make_request (fun _ => GetResult.exn) 0 0 0 (0 + 4) =
        ⟨.exn, [1, 2, 4], 4, 0 + 7⟩ :=
  ⟨fun _ => rfl,
    make_request_retries (fun _ => GetResult.exn) 0 0 (fun _ => rfl)⟩

/-- The ordering used by `results.sort(key=lambda x: x['stars'],
reverse=True)` (source line 141): `a` comes before `b` when `a` has at
least as many stars. -/
def starsGe (a b : AnalysisResult) : Prop := b.stars ≤ a.stars

instance : DecidableRel starsGe := fun a b => Int.decLe b.stars a.stars

instance : IsTotal AnalysisResult starsGe :=
  ⟨fun a b => le_total b.stars a.stars⟩

instance : IsTrans AnalysisResult starsGe :=
  ⟨fun _ _ _ hab hbc => le_trans hbc hab⟩

/-- The in-place `results.sort(key=lambda x: x['stars'], reverse=True)`:
a stable sort placing higher star counts first.  Python's sort is stable,
so any stable sort models it; insertion sort is stable. -/
def sortByStarsDesc (results : List AnalysisResult) : List AnalysisResult :=
  List.insertionSort starsGe results

/-- The data flow of `main` (source lines 115–146): build one
`AnalysisResult` per fetched repository via `check_repository` (a
`KeyError` anywhere aborts the whole run — `none`), then sort the
collection by star count descending.  Printing and optional file output
carry no further data transformation. -/
def main_results (now : Int) (repos : List RepoInfo) :
    Option (List AnalysisResult) :=
  (repos.mapM (check_repository now)).map sortByStarsDesc

/-- Claim C9: the final collection produced by the orchestrator is sorted
by star count descending, and two records with 50 and 200 stars come out
in the order [200-star record, 50-star record] whichever way they went
in. -/
theorem main_results_sorted :
    (∀ (now : Int) (repos : List RepoInfo) (res : List AnalysisResult),
        main_results now repos = some res → res.Sorted starsGe) ∧
      (∀ a b : AnalysisResult, a.stars = 50 → b.stars = 200 →
        sortByStarsDesc [a, b] = [b, a] ∧
          sortByStarsDesc [b, a] = [b, a]) := by
  constructor
  · intro now repos res h
    unfold main_results at h
    obtain ⟨l, -, hl⟩ := Option.map_eq_some'.mp h
    exact hl ▸ List.sorted_insertionSort starsGe l
  · intro a b ha hb
    constructor <;>
      simp [sortByStarsDesc, List.insertionSort, List.orderedInsert,
        starsGe, ha, hb]

/-- Witness for C9 at two concrete result records with 50 and 200
stars. -/
theorem main_results_sorted_witness :
    (AnalysisResult.mk "a" "u" "d" 50 0 0 "c" false false).stars = 50 ∧
      (AnalysisResult.mk "b" "u" "d" 200 0 0 "c" false false).stars = 200 ∧
      sortByStarsDesc
          [AnalysisResult.mk "a" "u" "d" 50 0 0 "c" false false,
            AnalysisResult.mk "b" "u" "d" 200 0 0 "c" false false] =
        [AnalysisResult.mk "b" "u" "d" 200 0 0 "c" false false,
          AnalysisResult.mk "a" "u" "d" 50 0 0 "c" false false] :=
  ⟨rfl, rfl,
    (main_results_sorted.2
        (AnalysisResult.mk "a" "u" "d" 50 0 0 "c" false false)
        (AnalysisResult.mk "b" "u" "d" 200 0 0 "c" false false)
        rfl rfl).1⟩
